import Mathlib

/-!
# Verification of the flight-price-modeling data-engineering core

Shallow embedding of the pipeline-stage core of the repository:
acquisition (`scripts/data_acquisition.py`), ingestion
(`scripts/ingest_db.py`), the logging registry
(`flight_price_predictor/core/logging_setup.py`), error enrichment
(`flight_price_predictor/core/exception.py`), YAML loading
(`flight_price_predictor/utils/data_io.py`) and configuration resolution
(`flight_price_predictor/config/configuration.py`).

The filesystem is modelled as a finite map from paths to files plus a set
of existing directories; Python exceptions become an explicit error type
carried in `Except`; functions with side effects return the updated
state together with their outcome.
-/

namespace FlightPrice

/-- A filesystem path, as a list of components (`Path("a/b")` is `["a", "b"]`). -/
abbrev FsPath := List String

/-- Render a path the way Python prints it, components joined by slashes. -/
def pathToString (p : FsPath) : String :=
  String.intercalate "/" p

/-- Python exceptions that the modelled code can raise. -/
inductive PyErr where
  | fileNotFoundError : String → PyErr
  | runtimeError : String → PyErr
  | valueError : String → PyErr
  | typeError : String → PyErr
  | boxKeyError : String → PyErr
  | badZipFile : String → PyErr
  | yamlError : PyErr
  deriving DecidableEq, Repr

/-- A regular file: its byte size and, when it is a valid ZIP archive, the
archive's entries (relative path and size of each member). `zip = none`
means the bytes are not a well-formed ZIP file. -/
structure FsFile where
  size : Nat
  zip : Option (List (FsPath × Nat))
  deriving DecidableEq, Repr

/-- Association-list lookup with propositional key comparison. -/
def alookup {α β : Type} [DecidableEq α] : List (α × β) → α → Option β
  | [], _ => none
  | (k, v) :: rest, a => if k = a then some v else alookup rest a

/-- Association-list update: replace the binding of the key if present,
append it otherwise. -/
def aupdate {α β : Type} [DecidableEq α] : List (α × β) → α → β → List (α × β)
  | [], a, b => [(a, b)]
  | (k, v) :: rest, a, b =>
    if k = a then (k, b) :: rest else (k, v) :: aupdate rest a b

/-- The filesystem: files (path to file) and the set of directories that
exist. -/
structure FS where
  files : List (FsPath × FsFile)
  dirs : List FsPath
  deriving DecidableEq, Repr

/-- `path.exists()` restricted to regular files. -/
def FS.pathExists (fs : FS) (p : FsPath) : Bool :=
  (alookup fs.files p).isSome

/-- `path.stat().st_size`: raises `FileNotFoundError` when the file is
absent, as `os.stat` does. -/
def FS.statSize (fs : FS) (p : FsPath) : Except PyErr Nat :=
  match alookup fs.files p with
  | some f => Except.ok f.size
  | none =>
    Except.error (PyErr.fileNotFoundError ("No such file or directory: " ++ pathToString p))

/-- All proper ancestor directories of a path (`a/b/c` yields `a` and `a/b`,
and the empty prefix standing for the current directory). -/
def ancestorsOf (p : FsPath) : List FsPath :=
  (List.range p.length).map (fun i => p.take i)

/-- `path.mkdir(parents=True, exist_ok=True)`: afterwards the directory and
all its ancestors exist; files are untouched. -/
def mkdirParents (fs : FS) (p : FsPath) : FS :=
  { fs with dirs := p :: ancestorsOf p ++ fs.dirs }

/-- `DataAcquisitionConfig` from `scripts/data_acquisition.py`. -/
structure DataAcquisitionConfig where
  file_id : String
  download_file_path : FsPath
  extract_dir : FsPath
  deriving DecidableEq, Repr

/-- The guard expression `download_file_path.exists() and
download_file_path.stat().st_size > 0`: `stat` is evaluated only when the
file exists, so it cannot raise here. -/
def existsAndPositive (fs : FS) (p : FsPath) : Bool :=
  match alookup fs.files p with
  | some f => decide (0 < f.size)
  | none => false

/-- The guard expression `not path.exists() and path.stat().st_size == 0`
as Python evaluates it: when the first conjunct is true (the file does not
exist) the second conjunct forces a `stat` call, which raises
`FileNotFoundError`; when it is false, `and` short-circuits to `False`. -/
def notExistsAndEmpty (fs : FS) (p : FsPath) : Except PyErr Bool :=
  if fs.pathExists p then Except.ok false
  else
    match fs.statSize p with
    | Except.ok sz => Except.ok (decide (sz = 0))
    | Except.error e => Except.error e

/-- Outcome of `DataAcquisition.download_zip`: final filesystem, the raised
exception (if any), and how many network fetches were performed. -/
structure DownloadResult where
  fs : FS
  result : Except PyErr Unit
  fetchCount : Nat
  deriving Repr

/-- `DataAcquisition.download_zip` (`scripts/data_acquisition.py`).
`fetch` models `gdown.download` writing into the filesystem (it may fail
to create the file, in which case it leaves the filesystem as it found
it). The enclosing `try`/`except ... raise` re-raises unchanged and is
therefore transparent. -/
def download_zip (cfg : DataAcquisitionConfig) (fetch : FS → FS) (fs : FS) :
    DownloadResult :=
  let fs1 := mkdirParents fs cfg.download_file_path.dropLast
  if existsAndPositive fs1 cfg.download_file_path then
    { fs := fs1, result := Except.ok (), fetchCount := 0 }
  else
    let fs2 := fetch fs1
    match notExistsAndEmpty fs2 cfg.download_file_path with
    | Except.error e => { fs := fs2, result := Except.error e, fetchCount := 1 }
    | Except.ok true =>
      { fs := fs2,
        result := Except.error (PyErr.runtimeError "Download failed or produced an empty file"),
        fetchCount := 1 }
    | Except.ok false => { fs := fs2, result := Except.ok (), fetchCount := 1 }

/-- `zip_ref.extractall(extract_dir)`: write every archive entry under the
extraction directory, preserving relative paths. Directories are not
removed by extraction. -/
def extractEntries (fs : FS) (dir : FsPath) (entries : List (FsPath × Nat)) : FS :=
  { fs with
    files := entries.foldl
      (fun acc e => aupdate acc (dir ++ e.1) { size := e.2, zip := none }) fs.files }

/-- `DataAcquisition.extract_all` (`scripts/data_acquisition.py`): create
`extract_dir`, evaluate the existence/emptiness guard, then open the
archive with `zipfile.ZipFile` and extract every entry. -/
def extract_all (cfg : DataAcquisitionConfig) (fs : FS) : FS × Except PyErr Unit :=
  let fs1 := mkdirParents fs cfg.extract_dir
  match notExistsAndEmpty fs1 cfg.download_file_path with
  | Except.error e => (fs1, Except.error e)
  | Except.ok true =>
    (fs1, Except.error (PyErr.fileNotFoundError "Zip file is missing or empty. Cannot extract."))
  | Except.ok false =>
    match alookup fs1.files cfg.download_file_path with
    | none =>
      (fs1, Except.error (PyErr.fileNotFoundError
        ("No such file or directory: " ++ pathToString cfg.download_file_path)))
    | some f =>
      match f.zip with
      | none => (fs1, Except.error (PyErr.badZipFile "File is not a zip file"))
      | some entries => (extractEntries fs1 cfg.extract_dir entries, Except.ok ())

/-! ## Logging registry (`core/logging_setup.py`) -/

/-- The two kinds of handler `get_logger` attaches: a `FileHandler` with its
path and open mode, and a console `StreamHandler`. -/
inductive HandlerKind where
  | file : FsPath → String → HandlerKind
  | stream : HandlerKind
  deriving DecidableEq, Repr

/-- The shared timestamped line format applied to both handlers. -/
def logFormat : String :=
  "%(asctime)s - %(name)s - %(module)s - %(levelname)s - %(message)s"

/-- A `logging.Handler`: kind, numeric level, and formatter string. -/
structure Handler where
  kind : HandlerKind
  level : Nat
  fmt : Option String
  deriving DecidableEq, Repr

/-- A `logging.Logger`: numeric level, attached handlers, propagate flag. -/
structure Logger where
  level : Nat
  handlers : List Handler
  propagate : Bool
  deriving DecidableEq, Repr

/-- A freshly created logger, as `logging.getLogger` builds one on a cache
miss: level NOTSET (0), no handlers, propagation on. -/
def freshLogger : Logger :=
  { level := 0, handlers := [], propagate := true }

/-- The process-wide state `get_logger` works on: the `logging` module's
name-to-logger cache and the filesystem (for the log directory). -/
structure LogState where
  registry : List (String × Logger)
  fs : FS
  deriving Repr

/-- The `logging.INFO` level. -/
def INFO : Nat := 20

/-- The file handler `get_logger` creates: INFO level, shared formatter. -/
def fileHandler (p : FsPath) (mode : String) : Handler :=
  { kind := HandlerKind.file p mode, level := INFO, fmt := some logFormat }

/-- The console handler `get_logger` creates. -/
def streamHandler : Handler :=
  { kind := HandlerKind.stream, level := INFO, fmt := some logFormat }

/-- `get_logger(name, log_file_path, mode="w")`
(`core/logging_setup.py`): create the log directory, fetch or create the
named logger from the process-wide cache, set INFO level, attach the file
and console handlers only when the logger has none, disable propagation,
and return the logger. -/
def get_logger (name : String) (log_file_path : FsPath) (mode : String)
    (st : LogState) : LogState × Logger :=
  let fs1 := mkdirParents st.fs log_file_path.dropLast
  let l0 := match alookup st.registry name with
            | some l => l
            | none => freshLogger
  let l1 := { l0 with level := INFO }
  let l2 := if l1.handlers = [] then
              { l1 with handlers := l1.handlers ++ [fileHandler log_file_path mode, streamHandler] }
            else l1
  let l3 := { l2 with propagate := false }
  ({ registry := aupdate st.registry name l3, fs := fs1 }, l3)

/-- The writes an INFO-level record produces on the durable (file) sinks:
one line per attached file handler whose level admits the record, provided
the logger's own level does. -/
def Logger.fileWritesInfo (l : Logger) (line : String) : List (FsPath × String) :=
  if l.level ≤ INFO then
    l.handlers.filterMap (fun h =>
      if h.level ≤ INFO then
        match h.kind with
        | HandlerKind.file p _ => some (p, line)
        | HandlerKind.stream => none
      else none)
  else []

/-! ## Error enrichment (`core/exception.py`) -/

/-- The traceback data `sys.exc_info()` exposes at the failure site. -/
structure TracebackInfo where
  fileName : String
  lineNumber : Nat
  deriving DecidableEq, Repr

/-- The enriched message `error_message_details` formats from the
stringified cause and the traceback. -/
def enrichedMessage (error : String) (tb : TracebackInfo) : String :=
  "Error occurred in python script - " ++ tb.fileName ++
    ", line number - " ++ toString tb.lineNumber ++
    ", error message - " ++ error

/-- `error_message_details(error, error_detail)` (`core/exception.py`):
returns the enriched message and the lines it wrote to the root logger via
`logging.error` before returning. -/
def error_message_details (error : String) (tb : TracebackInfo) :
    String × List String :=
  (enrichedMessage error tb, [enrichedMessage error tb])

/-- The `CustomException` envelope: the base `Exception` argument (the
original cause, as passed to `super().__init__`) and the enriched
message. -/
structure CustomException where
  args : String
  error_message : String
  deriving DecidableEq, Repr

/-- `CustomException.__init__(error_message, error_detail)`: store the raw
cause in the base class, compute and store the enriched message, and
return the envelope together with the lines written to the root logger
during construction. -/
def customExceptionInit (error_message : String) (tb : TracebackInfo) :
    CustomException × List String :=
  let d := error_message_details error_message tb
  ({ args := error_message, error_message := d.1 }, d.2)

/-- `CustomException.__str__`. -/
def CustomException.toStr (e : CustomException) : String :=
  e.error_message

/-! ## YAML loading and configuration (`utils/data_io.py`,
`config/configuration.py`) -/

/-- A parsed YAML value. -/
inductive YamlVal where
  | str : String → YamlVal
  | num : Int → YamlVal
  | map : List (String × YamlVal) → YamlVal

/-- What reading and parsing the file at the given path yields: the file is
missing, the document is syntactically invalid, or `yaml.safe_load`
returned a value (`none` for an empty document). -/
inductive ReadResult where
  | missing : ReadResult
  | invalid : ReadResult
  | parsed : Option YamlVal → ReadResult

/-- Whether a YAML value is a mapping — the only shape `ConfigBox`
accepts; anything else raises `BoxValueError`. -/
def isMapping : YamlVal → Bool
  | YamlVal.map _ => true
  | _ => false

/-- `load_yaml(path_to_yaml)` (`utils/data_io.py`): a missing file's
`FileNotFoundError` and the parser's `YAMLError` are re-raised unchanged
by the `except Exception as e: raise e` clause; an empty document raises
`ValueError("YAML file at ... is empty")`; a non-mapping top-level value
makes `ConfigBox` raise `BoxValueError`, caught and turned into
`ValueError("YAML file is invalid or contains unsupported values")`;
otherwise the parsed mapping is returned. -/
def load_yaml (path : String) (r : ReadResult) : Except PyErr YamlVal :=
  match r with
  | ReadResult.missing =>
    Except.error (PyErr.fileNotFoundError ("No such file or directory: " ++ path))
  | ReadResult.invalid => Except.error PyErr.yamlError
  | ReadResult.parsed none =>
    Except.error (PyErr.valueError ("YAML file at " ++ path ++ " is empty"))
  | ReadResult.parsed (some v) =>
    if isMapping v then Except.ok v
    else Except.error (PyErr.valueError "YAML file is invalid or contains unsupported values")

/-- Attribute access on a `ConfigBox` (`config.key`): a missing key or a
non-mapping receiver raises `BoxKeyError`. -/
def getAttr (v : YamlVal) (key : String) : Except PyErr YamlVal :=
  match v with
  | YamlVal.map m =>
    match alookup m key with
    | some w => Except.ok w
    | none => Except.error (PyErr.boxKeyError key)
  | _ => Except.error (PyErr.boxKeyError key)

/-- Whether the document has a value under the given dotted key path. -/
def hasAttrPath (v : YamlVal) : List String → Bool
  | [] => true
  | k :: ks =>
    match getAttr v k with
    | Except.ok w => hasAttrPath w ks
    | Except.error _ => false

/-- Split a character sequence on a separator character. -/
def splitOnChar (c : Char) : List Char → List (List Char)
  | [] => [[]]
  | x :: xs =>
    if x = c then [] :: splitOnChar c xs
    else
      match splitOnChar c xs with
      | [] => [[x]]
      | y :: ys => (x :: y) :: ys

/-- A string as a path: its slash-separated components. -/
def pathOfString (s : String) : FsPath :=
  (splitOnChar '/' s.data).map (fun cs => String.mk cs)

/-- `Path(value)`: succeeds on strings, splitting on slashes. -/
def asPath : YamlVal → Except PyErr FsPath
  | YamlVal.str s => Except.ok (pathOfString s)
  | _ => Except.error (PyErr.typeError "argument should be a str or an os.PathLike object")

/-- `create_directories(list_dir_path)` (`utils/data_io.py`). -/
def create_directories (dirs : List FsPath) (fs : FS) : FS :=
  dirs.foldl mkdirParents fs

/-- `ConfigurationManager.__init__` (`config/configuration.py`): load the
training configuration document, then create the directory named by
`config.data_ingestion.raw_data_path`. Returns the stored config and the
filesystem after directory creation. -/
def configurationManagerInit (r : ReadResult) (fs : FS) :
    Except PyErr (YamlVal × FS) :=
  match load_yaml "configs/training-config.yaml" r with
  | Except.error e => Except.error e
  | Except.ok cfg =>
    match getAttr cfg "data_ingestion" with
    | Except.error e => Except.error e
    | Except.ok di =>
      match getAttr di "raw_data_path" with
      | Except.error e => Except.error e
      | Except.ok rp =>
        match asPath rp with
        | Except.error e => Except.error e
        | Except.ok p => Except.ok (cfg, create_directories [p] fs)

/-! ## Ingestion (`scripts/ingest_db.py`) -/

/-- The rows of one parsed CSV file. -/
abbrev Table := List (List String)

/-- The `.csv`-extension filter in `ingest_db`'s directory loop:
`file.endswith(".csv")`, i.e. the file name's character sequence ends in
`.csv`. -/
def isCsvFile (fileName : String) : Bool :=
  List.isSuffixOf (".csv".data) fileName.data

/-- `ingest_db(config)` (`scripts/ingest_db.py`), restricted to the
evolution of the destination table: `listing` is the directory listing in
iteration order, each file paired with the rows `pd.read_csv` yields for
it; `to_sql(..., if_exists="replace")` replaces the whole table with that
file's rows, so non-CSV entries are skipped and each CSV fully overwrites
the table. -/
def ingest_db (table0 : Option Table) (listing : List (String × Table)) :
    Option Table :=
  listing.foldl (fun tbl file => if isCsvFile file.1 then some file.2 else tbl) table0

/-! ## Support definitions for concrete instances -/

/-- Whether an `Except` result is a success. -/
def exceptIsOk {ε α : Type} : Except ε α → Bool
  | Except.ok _ => true
  | Except.error _ => false

/-- Whether a `load_yaml` outcome is a failure carrying a `ValueError`
(the code's stand-in for the spec's `ConfigError`). -/
def errIsValueError : Except PyErr YamlVal → Bool
  | Except.error (PyErr.valueError _) => true
  | _ => false

/-- The logger `get_logger` produces on a cache miss: INFO level, one file
handler for the requested path and mode plus one console handler,
propagation disabled. -/
def configuredLogger (p : FsPath) (mode : String) : Logger :=
  { level := INFO, handlers := [fileHandler p mode, streamHandler], propagate := false }

/-- A sample acquisition configuration mirroring the spec's end-to-end
scenario. -/
def acqSampleConfig : DataAcquisitionConfig :=
  { file_id := "X", download_file_path := ["data", "archive.zip"],
    extract_dir := ["data", "extracted"] }

/-- The empty filesystem. -/
def emptyFS : FS := { files := [], dirs := [] }

/-- A non-empty, well-formed archive file. -/
def sampleArchive : FsFile := { size := 1024, zip := some [(["flights.csv"], 2048)] }

/-- A filesystem already holding the sample archive at the configured
download path. -/
def fsWithArchive : FS :=
  { files := [(["data", "archive.zip"], sampleArchive)], dirs := [["data"]] }

/-- A valid, non-empty configuration document that has
`data_ingestion.raw_data_path` but no `database` section at all. -/
def docMissingTableName : YamlVal :=
  YamlVal.map [("data_ingestion",
    YamlVal.map [("raw_data_path", YamlVal.str "artifacts/raw_data")])]

/-! ## Association-list and filesystem lemmas -/

theorem alookup_aupdate_self {α β : Type} [DecidableEq α] (l : List (α × β)) (a : α) (b : β) :
    alookup (aupdate l a b) a = some b := by
  induction l with
  | nil => simp [aupdate, alookup]
  | cons hd tl ih =>
    obtain ⟨k, v⟩ := hd
    by_cases h : k = a
    · simp [aupdate, alookup, h]
    · simp [aupdate, alookup, h, ih]

theorem aupdate_aupdate_self {α β : Type} [DecidableEq α] (l : List (α × β)) (a : α) (b c : β) :
    aupdate (aupdate l a b) a c = aupdate l a c := by
  induction l with
  | nil => simp [aupdate]
  | cons hd tl ih =>
    obtain ⟨k, v⟩ := hd
    by_cases h : k = a
    · simp [aupdate, h]
    · simp [aupdate, h, ih]

theorem mkdirParents_files (fs : FS) (p : FsPath) :
    (mkdirParents fs p).files = fs.files := rfl

theorem existsAndPositive_eq_true {fs : FS} {p : FsPath} {f : FsFile}
    (hf : alookup fs.files p = some f) (hsz : 0 < f.size) :
    existsAndPositive fs p = true := by
  unfold existsAndPositive
  rw [hf]
  simp only [decide_eq_true_eq]
  exact hsz

theorem notExistsAndEmpty_of_none {fs : FS} {p : FsPath}
    (h : alookup fs.files p = none) :
    notExistsAndEmpty fs p =
      Except.error (PyErr.fileNotFoundError ("No such file or directory: " ++ pathToString p)) := by
  unfold notExistsAndEmpty FS.pathExists FS.statSize
  rw [h]
  rfl

theorem notExistsAndEmpty_of_some {fs : FS} {p : FsPath} {f : FsFile}
    (h : alookup fs.files p = some f) :
    notExistsAndEmpty fs p = Except.ok false := by
  unfold notExistsAndEmpty FS.pathExists
  rw [h]
  rfl

/-! ## Acquisition stage claims -/

/-- C1: for every acquisition configuration, when the file at the
configured download path exists with size strictly greater than zero,
`download_zip` returns successfully, performs no network fetch, and leaves
every file (in particular the archive) unmodified. -/
theorem download_zip_skips_fetch_when_archive_present (cfg : DataAcquisitionConfig)
    (fetch : FS → FS) (fs : FS) (f : FsFile)
    (hf : alookup fs.files cfg.download_file_path = some f) (hsz : 0 < f.size) :
    (download_zip cfg fetch fs).result = Except.ok () ∧
    (download_zip cfg fetch fs).fetchCount = 0 ∧
    (download_zip cfg fetch fs).fs.files = fs.files := by
  have h1 : existsAndPositive (mkdirParents fs cfg.download_file_path.dropLast)
      cfg.download_file_path = true :=
    existsAndPositive_eq_true hf hsz
  have e : download_zip cfg fetch fs =
      { fs := mkdirParents fs cfg.download_file_path.dropLast,
        result := Except.ok (), fetchCount := 0 } := by
    unfold download_zip
    simp [h1]
  rw [e]
  exact ⟨rfl, rfl, rfl⟩

/-- Witness for C1: with a 1024-byte archive already at `data/archive.zip`,
`download_zip` succeeds with zero fetches and unchanged files. -/
theorem download_zip_skip_witness :
    (download_zip acqSampleConfig id fsWithArchive).result = Except.ok () ∧
    (download_zip acqSampleConfig id fsWithArchive).fetchCount = 0 ∧
    (download_zip acqSampleConfig id fsWithArchive).fs.files = fsWithArchive.files :=
  download_zip_skips_fetch_when_archive_present acqSampleConfig id fsWithArchive
    sampleArchive (by rfl) (by decide)

/-- C9: on every execution of `download_zip` the `RuntimeError` branch is
unreachable — the result is never that `RuntimeError`; when the fetch
leaves the target absent the failure surfaces as `FileNotFoundError`
raised by `path.stat()`; and a fetch that produces an existing zero-byte
file raises nothing. -/
theorem download_zip_runtimeError_branch_unreachable (cfg : DataAcquisitionConfig)
    (fetch : FS → FS) (fs : FS) :
    (∀ m, (download_zip cfg fetch fs).result ≠ Except.error (PyErr.runtimeError m)) ∧
    (existsAndPositive (mkdirParents fs cfg.download_file_path.dropLast)
        cfg.download_file_path = false →
      (alookup (fetch (mkdirParents fs cfg.download_file_path.dropLast)).files
          cfg.download_file_path = none →
        (download_zip cfg fetch fs).result =
          Except.error (PyErr.fileNotFoundError
            ("No such file or directory: " ++ pathToString cfg.download_file_path))) ∧
      (∀ f, alookup (fetch (mkdirParents fs cfg.download_file_path.dropLast)).files
          cfg.download_file_path = some f → f.size = 0 →
        (download_zip cfg fetch fs).result = Except.ok ())) := by
  unfold download_zip
  cases hskip : existsAndPositive (mkdirParents fs cfg.download_file_path.dropLast)
      cfg.download_file_path with
  | true =>
    refine ⟨?_, ?_⟩
    · intro m
      simp [hskip]
    · intro hc
      cases hc
  | false =>
    cases hlook : alookup (fetch (mkdirParents fs cfg.download_file_path.dropLast)).files
        cfg.download_file_path with
    | none =>
      have hg := notExistsAndEmpty_of_none hlook
      refine ⟨?_, ?_⟩
      · intro m
        simp [hskip, hg]
      · intro _
        refine ⟨?_, ?_⟩
        · intro _
          simp [hskip, hg]
        · intro f hf _
          simp at hf
    | some f =>
      have hg := notExistsAndEmpty_of_some hlook
      refine ⟨?_, ?_⟩
      · intro m
        simp [hskip, hg]
      · intro _
        refine ⟨?_, ?_⟩
        · intro hc
          simp at hc
        · intro f' hf' _
          simp [hskip, hg]

/-- Witness for C9: on the empty filesystem with a fetch that writes
nothing, the result is the `stat` `FileNotFoundError`, not the
`RuntimeError`. -/
theorem download_zip_runtimeError_unreachable_witness :
    (download_zip acqSampleConfig id emptyFS).result ≠
      Except.error (PyErr.runtimeError "Download failed or produced an empty file") ∧
    (download_zip acqSampleConfig id emptyFS).result =
      Except.error (PyErr.fileNotFoundError "No such file or directory: data/archive.zip") := by
  constructor
  · exact (download_zip_runtimeError_branch_unreachable acqSampleConfig id emptyFS).1 _
  · have h := ((download_zip_runtimeError_branch_unreachable acqSampleConfig id emptyFS).2
      (by rfl)).1 (by rfl)
    rw [h]
    rfl

/-- C2 (code bug): evaluating `download_zip` at a failing fetch (the target
path still absent afterwards) raises `FileNotFoundError` from
`path.stat()`, not the documented
`RuntimeError("Download failed or produced an empty file")`. -/
theorem download_zip_failed_fetch_raises_fileNotFoundError :
    (download_zip acqSampleConfig id emptyFS).result =
      Except.error (PyErr.fileNotFoundError "No such file or directory: data/archive.zip") ∧
    (download_zip acqSampleConfig id emptyFS).result ≠
      Except.error (PyErr.runtimeError "Download failed or produced an empty file") := by
  refine ⟨rfl, ?_⟩
  intro hc
  rw [show (download_zip acqSampleConfig id emptyFS).result =
      Except.error (PyErr.fileNotFoundError "No such file or directory: data/archive.zip")
      from rfl] at hc
  simp at hc

/-- C5: for every acquisition configuration whose archive path does not
exist, `extract_all` fails with `FileNotFoundError` and writes no file
anywhere (in particular none under `extract_dir`); no extraction is
attempted. -/
theorem extract_all_missing_archive_fails_without_writes (cfg : DataAcquisitionConfig)
    (fs : FS) (h : alookup fs.files cfg.download_file_path = none) :
    (extract_all cfg fs).2 =
      Except.error (PyErr.fileNotFoundError
        ("No such file or directory: " ++ pathToString cfg.download_file_path)) ∧
    (extract_all cfg fs).1.files = fs.files := by
  have hg : notExistsAndEmpty (mkdirParents fs cfg.extract_dir) cfg.download_file_path =
      Except.error (PyErr.fileNotFoundError
        ("No such file or directory: " ++ pathToString cfg.download_file_path)) :=
    notExistsAndEmpty_of_none h
  unfold extract_all
  simp [hg]
  rfl

/-- Witness for C5: extraction on the empty filesystem fails with
`FileNotFoundError` and leaves the (empty) file table unchanged. -/
theorem extract_all_missing_archive_witness :
    (extract_all acqSampleConfig emptyFS).2 =
      Except.error (PyErr.fileNotFoundError "No such file or directory: data/archive.zip") ∧
    (extract_all acqSampleConfig emptyFS).1.files = emptyFS.files :=
  extract_all_missing_archive_fails_without_writes acqSampleConfig emptyFS (by rfl)

/-- C10: `extract_all` creates `extract_dir` before validating the archive,
so after every invocation — including every failing one — `extract_dir`
exists on the filesystem. -/
theorem extract_all_always_creates_extract_dir (cfg : DataAcquisitionConfig) (fs : FS) :
    cfg.extract_dir ∈ (extract_all cfg fs).1.dirs := by
  simp only [extract_all]
  split
  · exact List.mem_cons_self _ _
  · exact List.mem_cons_self _ _
  · split
    · exact List.mem_cons_self _ _
    · split
      · exact List.mem_cons_self _ _
      · exact List.mem_cons_self _ _

/-! ## Logging registry claims -/

theorem get_logger_first_call (name : String) (p : FsPath) (mode : String) (st : LogState)
    (h : alookup st.registry name = none) :
    get_logger name p mode st =
      ({ registry := aupdate st.registry name (configuredLogger p mode),
         fs := mkdirParents st.fs p.dropLast }, configuredLogger p mode) := by
  simp [get_logger, h, freshLogger, configuredLogger]

/-- C3: a second (or later) `get_logger` call with the same name returns
the very logger the first call produced, unchanged and regardless of the
later call's path and mode arguments; the registry entry is unchanged; the
logger has exactly the one file handler and one console handler from the
first call; and an INFO record reaches the durable sink exactly once — one
write, to the first call's log file. -/
theorem get_logger_second_call_returns_same_logger (name : String) (p1 p2 : FsPath)
    (m1 m2 : String) (st : LogState) (h : alookup st.registry name = none) :
    ((get_logger name p2 m2 (get_logger name p1 m1 st).1).2 = (get_logger name p1 m1 st).2) ∧
    ((get_logger name p2 m2 (get_logger name p1 m1 st).1).1.registry
       = (get_logger name p1 m1 st).1.registry) ∧
    ((get_logger name p1 m1 st).2.handlers = [fileHandler p1 m1, streamHandler]) ∧
    (∀ line, (get_logger name p2 m2 (get_logger name p1 m1 st).1).2.fileWritesInfo line
       = [(p1, line)]) := by
  have e1 := get_logger_first_call name p1 m1 st h
  have hl := alookup_aupdate_self st.registry name (configuredLogger p1 m1)
  simp only [configuredLogger, fileHandler, streamHandler, INFO] at hl
  have e2 : get_logger name p2 m2
      ({ registry := aupdate st.registry name (configuredLogger p1 m1),
         fs := mkdirParents st.fs p1.dropLast } : LogState) =
      ({ registry := aupdate st.registry name (configuredLogger p1 m1),
         fs := mkdirParents (mkdirParents st.fs p1.dropLast) p2.dropLast },
       configuredLogger p1 m1) := by
    simp [get_logger, hl, configuredLogger, fileHandler, streamHandler, INFO,
      aupdate_aupdate_self]
  rw [e1]
  dsimp only
  refine ⟨?_, ?_, ?_, ?_⟩
  · rw [e2]
  · rw [e2]
  · rfl
  · intro line
    rw [e2]
    simp [Logger.fileWritesInfo, configuredLogger, fileHandler, streamHandler, INFO]

/-- Witness for C3: requesting the `Data Ingestion` logger twice, with
different paths and modes, on a fresh process state. -/
theorem get_logger_idempotent_witness :
    ((get_logger "Data Ingestion" ["logs", "b.log"] "a"
        (get_logger "Data Ingestion" ["logs", "data_ingestion.log"] "w"
          { registry := [], fs := emptyFS }).1).2
      = (get_logger "Data Ingestion" ["logs", "data_ingestion.log"] "w"
          { registry := [], fs := emptyFS }).2) ∧
    ((get_logger "Data Ingestion" ["logs", "b.log"] "a"
        (get_logger "Data Ingestion" ["logs", "data_ingestion.log"] "w"
          { registry := [], fs := emptyFS }).1).1.registry
      = (get_logger "Data Ingestion" ["logs", "data_ingestion.log"] "w"
          { registry := [], fs := emptyFS }).1.registry) ∧
    ((get_logger "Data Ingestion" ["logs", "data_ingestion.log"] "w"
        { registry := [], fs := emptyFS }).2.handlers
      = [fileHandler ["logs", "data_ingestion.log"] "w", streamHandler]) ∧
    (∀ line, (get_logger "Data Ingestion" ["logs", "b.log"] "a"
        (get_logger "Data Ingestion" ["logs", "data_ingestion.log"] "w"
          { registry := [], fs := emptyFS }).1).2.fileWritesInfo line
      = [(["logs", "data_ingestion.log"], line)]) :=
  get_logger_second_call_returns_same_logger "Data Ingestion"
    ["logs", "data_ingestion.log"] ["logs", "b.log"] "w" "a"
    { registry := [], fs := emptyFS } rfl

/-! ## Ingestion claims -/

theorem ingest_db_eq_getLast (table0 : Option Table) (listing : List (String × Table)) :
    ingest_db table0 listing =
      match (listing.filter fun f => isCsvFile f.1).getLast? with
      | some f => some f.2
      | none => table0 := by
  induction listing using List.reverseRecOn with
  | nil => rfl
  | append_singleton l x ih =>
    by_cases hx : isCsvFile x.1
    · simp [ingest_db, List.foldl_append, List.filter_append, hx, List.getLast?_concat]
    · simp only [ingest_db, List.foldl_append, List.foldl_cons, List.foldl_nil,
        List.filter_append, List.filter_cons, hx] at ih ⊢
      simp [hx, ih, List.filter_nil]

/-- C4: when the data directory holds at least one `.csv` file, the
destination table after `ingest_db` equals exactly the rows of the last
`.csv` file processed — each file fully replaces the table, whatever its
prior content. -/
theorem ingest_db_last_csv_file_wins (table0 : Option Table)
    (listing : List (String × Table))
    (h : (listing.filter fun f => isCsvFile f.1) ≠ []) :
    ingest_db table0 listing
      = ((listing.filter fun f => isCsvFile f.1).getLast?).map Prod.snd := by
  rw [ingest_db_eq_getLast]
  cases hc : (listing.filter fun f => isCsvFile f.1).getLast? with
  | none => exact absurd (List.getLast?_eq_none_iff.mp hc) h
  | some f => simp

/-- Witness for C4: with `a.csv` then `b.csv` the final table is the rows
of `b.csv` only. -/
theorem ingest_db_last_csv_file_wins_witness :
    ingest_db none [("a.csv", [["r1"]]), ("b.csv", [["r2"]])] = some [["r2"]] := by
  rw [ingest_db_last_csv_file_wins none [("a.csv", [["r1"]]), ("b.csv", [["r2"]])] (by decide)]
  decide

/-! ## Configuration claims -/

/-- C6 counterexample: a valid, non-empty configuration document that lacks
`database.table_name` entirely does NOT fail configuration load — the
`ConfigurationManager` construction succeeds, contradicting the claim that
it fails with `ConfigError`. -/
theorem configurationManagerInit_missing_table_name_loads_ok :
    hasAttrPath docMissingTableName ["database", "table_name"] = false ∧
    exceptIsOk (configurationManagerInit
      (ReadResult.parsed (some docMissingTableName)) emptyFS) = true :=
  ⟨rfl, rfl⟩

/-- C6 (amended): configuration load does not validate
`database.table_name`: for every mapping document carrying a string at
`data_ingestion.raw_data_path`, `ConfigurationManager` construction
succeeds — even when `database.table_name` is absent — and creates the
`raw_data_path` directory; the missing key can only surface later, at
attribute access time. -/
theorem configurationManagerInit_succeeds_without_table_name
    (m di : List (String × YamlVal)) (s : String) (fs : FS)
    (h1 : alookup m "data_ingestion" = some (YamlVal.map di))
    (h2 : alookup di "raw_data_path" = some (YamlVal.str s))
    (_h3 : hasAttrPath (YamlVal.map m) ["database", "table_name"] = false) :
    configurationManagerInit (ReadResult.parsed (some (YamlVal.map m))) fs =
      Except.ok (YamlVal.map m, create_directories [pathOfString s] fs) := by
  simp [configurationManagerInit, load_yaml, isMapping, getAttr, asPath, h1, h2]

/-- Witness for C6 (amended): the sample document without a `database`
section loads successfully. -/
theorem configurationManagerInit_succeeds_without_table_name_witness :
    configurationManagerInit (ReadResult.parsed (some docMissingTableName)) emptyFS =
      Except.ok (docMissingTableName,
        create_directories [pathOfString "artifacts/raw_data"] emptyFS) :=
  configurationManagerInit_succeeds_without_table_name
    [("data_ingestion", YamlVal.map [("raw_data_path", YamlVal.str "artifacts/raw_data")])]
    [("raw_data_path", YamlVal.str "artifacts/raw_data")] "artifacts/raw_data" emptyFS
    rfl rfl rfl

/-! ## Error-enrichment claim -/

/-- C7: for every cause, the `CustomException` envelope's string form is
exactly the enriched message — which contains the originating file name,
line number and stringified cause, and is never the raw cause alone; the
enriched message is written to the shared diagnostic sink (root
`logging.error`) during construction, before the envelope is returned; and
the underlying cause is stored unaltered in the envelope. -/
theorem customException_str_is_enriched_message (cause : String) (tb : TracebackInfo) :
    ((customExceptionInit cause tb).1.toStr = enrichedMessage cause tb) ∧
    (tb.fileName.data <:+: ((customExceptionInit cause tb).1.toStr).data) ∧
    ((toString tb.lineNumber).data <:+: ((customExceptionInit cause tb).1.toStr).data) ∧
    (cause.data <:+: ((customExceptionInit cause tb).1.toStr).data) ∧
    ((customExceptionInit cause tb).1.toStr ≠ cause) ∧
    ((customExceptionInit cause tb).2 = [(customExceptionInit cause tb).1.toStr]) ∧
    ((customExceptionInit cause tb).1.args = cause) := by
  have hdata : ((customExceptionInit cause tb).1.toStr).data =
      "Error occurred in python script - ".data ++ tb.fileName.data
        ++ ", line number - ".data ++ (toString tb.lineNumber).data
        ++ ", error message - ".data ++ cause.data := by
    simp [customExceptionInit, error_message_details, CustomException.toStr,
      enrichedMessage, String.data_append]
  refine ⟨rfl, ?_, ?_, ?_, ?_, rfl, rfl⟩
  · rw [hdata]
    refine ⟨"Error occurred in python script - ".data,
      ", line number - ".data ++ (toString tb.lineNumber).data
        ++ ", error message - ".data ++ cause.data, ?_⟩
    simp [List.append_assoc]
  · rw [hdata]
    refine ⟨"Error occurred in python script - ".data ++ tb.fileName.data
        ++ ", line number - ".data,
      ", error message - ".data ++ cause.data, ?_⟩
    simp [List.append_assoc]
  · rw [hdata]
    refine ⟨"Error occurred in python script - ".data ++ tb.fileName.data
        ++ ", line number - ".data ++ (toString tb.lineNumber).data
        ++ ", error message - ".data, [], ?_⟩
    simp [List.append_assoc]
  · intro hc
    have hlen := congrArg String.length hc
    simp only [CustomException.toStr, customExceptionInit, error_message_details,
      enrichedMessage, String.length_append] at hlen
    have hA : 0 < "Error occurred in python script - ".length := by decide
    omega

/-! ## YAML loading claims -/

/-- C8 counterexample: a syntactically invalid document does not fail with
`ValueError` (the code's `ConfigError`): the parser's `YAMLError` is
re-raised unchanged, and no configuration is returned. -/
theorem load_yaml_invalid_not_valueError :
    errIsValueError (load_yaml "configs/training-config.yaml" ReadResult.invalid) = false ∧
    exceptIsOk (load_yaml "configs/training-config.yaml" ReadResult.invalid) = false :=
  ⟨rfl, rfl⟩

/-- C8 (amended): for every path, `load_yaml` fails with `ValueError` when
the document is empty or its top-level value is not a mapping (unsupported
type); a syntactically invalid document fails with the parser's own
`YAMLError` re-raised unchanged; a missing file fails with
`FileNotFoundError`; and otherwise the parsed mapping is returned. -/
theorem load_yaml_error_classification (path : String) (r : ReadResult) :
    (r = ReadResult.parsed none →
      load_yaml path r
        = Except.error (PyErr.valueError ("YAML file at " ++ path ++ " is empty"))) ∧
    (∀ v, r = ReadResult.parsed (some v) → isMapping v = false →
      load_yaml path r
        = Except.error (PyErr.valueError "YAML file is invalid or contains unsupported values")) ∧
    (r = ReadResult.invalid → load_yaml path r = Except.error PyErr.yamlError) ∧
    (r = ReadResult.missing →
      load_yaml path r
        = Except.error (PyErr.fileNotFoundError ("No such file or directory: " ++ path))) ∧
    (∀ m, r = ReadResult.parsed (some (YamlVal.map m)) →
      load_yaml path r = Except.ok (YamlVal.map m)) := by
  refine ⟨?_, ?_, ?_, ?_, ?_⟩
  · intro h
    subst h
    rfl
  · intro v h hv
    subst h
    simp [load_yaml, hv]
  · intro h
    subst h
    rfl
  · intro h
    subst h
    rfl
  · intro m h
    subst h
    rfl

/-- Witness for C8 (amended): the empty document and a scalar document both
fail with the documented `ValueError`s. -/
theorem load_yaml_error_classification_witness :
    load_yaml "configs/training-config.yaml" (ReadResult.parsed none) =
      Except.error (PyErr.valueError "YAML file at configs/training-config.yaml is empty") ∧
    load_yaml "configs/training-config.yaml" (ReadResult.parsed (some (YamlVal.str "42"))) =
      Except.error (PyErr.valueError "YAML file is invalid or contains unsupported values") := by
  constructor
  · rw [(load_yaml_error_classification "configs/training-config.yaml"
      (ReadResult.parsed none)).1 rfl]
    rfl
  · exact (load_yaml_error_classification "configs/training-config.yaml"
      (ReadResult.parsed (some (YamlVal.str "42")))).2.1 (YamlVal.str "42") rfl rfl

end FlightPrice
